import Mathlib

/-!
Verification of `mlrun/api/utils/clients/chief.py` — the chief-proxy client.

The file shallowly embeds the Python module: Python strings become `List Char`,
byte strings become `List Nat`, dicts become association lists, the `requests`
transport becomes an explicit function argument whose outcome is either a
response or a raised exception, and the logger becomes an accumulated list of
log entries.
-/

set_option linter.unusedVariables false

/-- Python strings, embedded as lists of characters. -/
abbrev PyStr := List Char

/-- Turn a Lean string literal into the embedded Python string type. -/
def sl (s : String) : PyStr := s.toList

/-- JSON values, as produced by `response.json()`. -/
inductive JValue where
  | null
  | bool (b : Bool)
  | num (n : Int)
  | str (s : PyStr)
  | arr (elems : List JValue)
  | obj (fields : List (PyStr × JValue))

/-- `Client.__init__`: the resolved chief api url with one trailing slash
stripped — `self._api_url[:-1] if self._api_url.endswith("/") else self._api_url`.
Python's `endswith("/")` for a one-character suffix is exactly "the last
character is a slash", and `s[:-1]` drops the last character. -/
def initApiUrl (resolved_chief_api_url : PyStr) : PyStr :=
  if resolved_chief_api_url.getLast? = some '/' then resolved_chief_api_url.dropLast
  else resolved_chief_api_url

/-- `_send_request_to_api`: the outbound url,
built by the f-string `f"..."` over api url, api base version and path. -/
def sendUrl (api_url api_base_version path : PyStr) : PyStr :=
  api_url ++ sl "/api/" ++ api_base_version ++ sl "/" ++ path

/-- `true` iff the character list contains no two consecutive slashes. -/
def noDoubleSlash : List Char → Bool
  | [] => true
  | [_] => true
  | a :: b :: rest => !(a == '/' && b == '/') && noDoubleSlash (b :: rest)

theorem noDoubleSlash_cons_cons (a b : Char) (rest : List Char) :
    noDoubleSlash (a :: b :: rest)
      = (!(a == '/' && b == '/') && noDoubleSlash (b :: rest)) := rfl

/-- Appending preserves `noDoubleSlash` when the seam is slash-free. -/
theorem noDoubleSlash_append (xs ys : List Char)
    (hx : noDoubleSlash xs = true) (hy : noDoubleSlash ys = true)
    (hb : xs.getLast? ≠ some '/' ∨ ys.head? ≠ some '/') :
    noDoubleSlash (xs ++ ys) = true := by
  induction xs with
  | nil => simpa using hy
  | cons a t ih =>
    cases t with
    | nil =>
      cases ys with
      | nil => simp [noDoubleSlash]
      | cons y t2 =>
        have hseam : (a == '/' && y == '/') = false := by
          rcases hb with h | h
          · simp only [List.getLast?_singleton, ne_eq, Option.some.injEq] at h
            simp [h]
          · simp only [List.head?_cons, ne_eq, Option.some.injEq] at h
            simp [h]
        simpa [noDoubleSlash_cons_cons, hseam] using hy
    | cons b t2 =>
      rw [List.cons_append, List.cons_append, noDoubleSlash_cons_cons]
      simp only [noDoubleSlash_cons_cons, Bool.and_eq_true, Bool.not_eq_true'] at hx
      obtain ⟨hseam, htail⟩ := hx
      have hb2 : (b :: t2).getLast? ≠ some '/' ∨ ys.head? ≠ some '/' := by
        rcases hb with h | h
        · left; rwa [List.getLast?_cons_cons] at h
        · right; exact h
      have := ih htail hb2
      rw [List.cons_append] at this
      simp [hseam, this]

theorem getLast?_ne_slash_of_append (xs ys : List Char) (hys : ys ≠ [])
    (h : ys.getLast? ≠ some '/') : (xs ++ ys).getLast? ≠ some '/' := by
  rwa [List.getLast?_append_of_ne_nil xs hys]

theorem head?_ne_slash_of_append (xs ys : List Char) (hxs : xs ≠ [])
    (h : xs.head? ≠ some '/') : (xs ++ ys).head? ≠ some '/' := by
  rwa [List.head?_append_of_ne_nil xs hxs]

/-- `requests.structures.CaseInsensitiveDict`: keys compare case-insensitively;
iteration (and hence `dict(...)`) yields the original-cased keys with their
values, so flattening is exactly the stored entry list. -/
structure CaseInsensitiveDict where
  entries : List (PyStr × PyStr)

/-- `dict(d)` applied to a `CaseInsensitiveDict`: the plain mapping holding the
same (original-cased key, value) entries the iteration yields. -/
def CaseInsensitiveDict.toDict (d : CaseInsensitiveDict) : List (PyStr × PyStr) :=
  d.entries

/-- `requests.Response`, restricted to the members this module reads.
`jsonData` is the outcome of `response.json()`: `some v` when the body parses
as JSON, `none` when `.json()` raises; `text` is the body decoded as text. -/
structure RequestsResponse where
  status_code : Nat
  content : List Nat
  headers : CaseInsensitiveDict
  jsonData : Option JValue
  text : PyStr

/-- `requests.Response.ok`: `False` exactly when `raise_for_status` would
raise, i.e. when the status code is a 4xx or 5xx. -/
def RequestsResponse.ok (r : RequestsResponse) : Bool :=
  !(decide (400 ≤ r.status_code) && decide (r.status_code < 600))

/-- `fastapi.Request`, restricted to the members this module reads. -/
structure FastAPIRequest where
  headers : CaseInsensitiveDict
  query_params : List (PyStr × PyStr)
  cookies : List (PyStr × PyStr)

/-- `fastapi.responses.Response`, as constructed by this module: the four
constructor arguments it is given. -/
structure FastAPIResponse where
  content : List Nat
  status_code : Nat
  headers : List (PyStr × PyStr)
  media_type : PyStr

/-- The keyword arguments this module passes to `self._session.request`,
as an explicit record of the optional keys it may set (`none` = key absent). -/
structure RequestKwargs where
  data : Option (List (PyStr × JValue)) := none
  headers : Option (List (PyStr × PyStr)) := none
  params : Option (List (PyStr × PyStr)) := none
  cookies : Option (List (PyStr × PyStr)) := none
  timeout : Option Nat := none

/-- Exceptions that can cross this module's boundary: connection-level errors
raised by the `requests` transport, and the domain error raised by
`mlrun.errors.raise_for_status`. -/
inductive PyError where
  | connectionError (msg : PyStr)
  | mlrunHTTPError (status_code : Nat)

/-- Modelled from the spec: `mlrun.errors.raise_for_status` lives outside the
embedded source; per the spec it "converts the failed response into a domain
error and raises it", the error "carrying the status and available error
detail". -/
def raise_for_status (response : RequestsResponse) : PyError :=
  PyError.mlrunHTTPError response.status_code

/-- The body value logged on the success path: `response.json()` when it
parses, else `response.text`. -/
inductive LoggedBody where
  | json (v : JValue)
  | text (s : PyStr)

inductive LogLevel where
  | debug
  | warning
deriving BEq, DecidableEq

/-- The keyword arguments handed to `logger.warning` on the failure path:
the copied outbound kwargs plus `method`, `path` and, when extracted, the
`error` and `error_stack_trace` fields (outer `none` = field absent). -/
structure LogKwargs where
  base : RequestKwargs
  method : PyStr
  path : PyStr
  error : Option (Option JValue) := none
  error_stack_trace : Option (Option JValue) := none

/-- One `logger.debug`/`logger.warning` call, with the structured fields this
module passes (`none` = field not passed). -/
structure LogEntry where
  level : LogLevel
  message : PyStr
  method : Option PyStr := none
  url : Option PyStr := none
  kwargs : Option RequestKwargs := none
  logKwargs : Option LogKwargs := none
  response : Option LoggedBody := none

/-- The observable outcome of `_send_request_to_api`: the log calls it made,
and either the returned `requests.Response` or the exception it raised. -/
structure SendOutcome where
  logs : List LogEntry
  result : Except PyError RequestsResponse

/-- The observable outcome of `_proxy_request_to_chief`. -/
structure ProxyOutcome where
  logs : List LogEntry
  result : Except PyError FastAPIResponse

/-- `Client._resolve_request_kwargs_from_request`. When a request is present,
`data = body if body else ` an empty dict (Python truthiness: `None` and the
empty dict both fall back), and headers, params and cookies are flattened
copies of the inbound request's. -/
def resolve_request_kwargs_from_request (request : Option FastAPIRequest)
    (body : Option (List (PyStr × JValue))) : RequestKwargs :=
  match request with
  | none => {}
  | some req =>
      { data := some (body.getD []),
        headers := some req.headers.toDict,
        params := some req.query_params,
        cookies := some req.cookies,
        timeout := none }

/-- `if kwargs.get("timeout") is None: kwargs["timeout"] = 20`. -/
def setDefaultTimeout (kwargs : RequestKwargs) : RequestKwargs :=
  if kwargs.timeout = none then { kwargs with timeout := some 20 } else kwargs

/-- The `try: data = response.json(); error = data.get("error"); ...` block of
the failure path, guarded by `if response.content:`. `some (e, st)` when the
`else:` clause runs (body parses as a JSON object; `.get` returns the field or
Python `None`); `none` when the block is skipped or any step raises and the
bare `except` swallows it (unparseable body, or a non-object JSON value whose
`.get` raises `AttributeError`). -/
def extractErrorDetails (response : RequestsResponse) :
    Option (Option JValue × Option JValue) :=
  if response.content = [] then none
  else
    match response.jsonData with
    | some (JValue.obj fields) =>
        some (fields.lookup (sl "error"), fields.lookup (sl "errorStackTrace"))
    | _ => none

/-- The success-path `try: data = response.json() except Exception: data = response.text`. -/
def successLoggedBody (response : RequestsResponse) : LoggedBody :=
  match response.jsonData with
  | some v => LoggedBody.json v
  | none => LoggedBody.text response.text

/-- `Client._send_request_to_api`. The `requests` session is passed in as a
function from (method, url, kwargs) to its outcome — a response, or a raised
connection-level exception (after the adapter's internal retries); the call
also fixes `verify=False`. -/
def send_request_to_api (api_url api_base_version : PyStr)
    (session_request : PyStr → PyStr → RequestKwargs → Except PyError RequestsResponse)
    (method path : PyStr) (raise_on_failure : Bool) (kwargs0 : RequestKwargs) :
    SendOutcome :=
  let url := sendUrl api_url api_base_version path
  let kwargs := setDefaultTimeout kwargs0
  let sendingLog : LogEntry :=
    { level := LogLevel.debug, message := sl "Sending request to chief",
      method := some method, url := some url, kwargs := some kwargs }
  let step : List LogEntry × Except PyError RequestsResponse :=
    match session_request method url kwargs with
    | Except.error e => ([], Except.error e)
    | Except.ok response =>
      if !response.ok then
        let log_kwargs : LogKwargs :=
          match extractErrorDetails response with
          | some (e, st) =>
              { base := kwargs, method := method, path := path,
                error := some e, error_stack_trace := some st }
          | none => { base := kwargs, method := method, path := path }
        let warnLog : LogEntry :=
          { level := LogLevel.warning, message := sl "Request to chief failed",
            logKwargs := some log_kwargs }
        if raise_on_failure then
          ([warnLog], Except.error (raise_for_status response))
        else
          ([warnLog], Except.ok response)
      else
        let okLog : LogEntry :=
          { level := LogLevel.debug, message := sl "Request to chief succeeded",
            method := some method, url := some url, kwargs := some kwargs,
            response := some (successLoggedBody response) }
        ([okLog], Except.ok response)
  { logs := sendingLog :: step.1, result := step.2 }

/-- `Client._convert_requests_response_to_fastapi_response`: content bytes,
status code, flattened headers, and a forced `application/json` media type. -/
def convert_requests_response_to_fastapi_response
    (chief_response : RequestsResponse) : FastAPIResponse :=
  { content := chief_response.content,
    status_code := chief_response.status_code,
    headers := chief_response.headers.toDict,
    media_type := sl "application/json" }

/-- `Client._proxy_request_to_chief`. -/
def proxy_request_to_chief (api_url api_base_version : PyStr)
    (session_request : PyStr → PyStr → RequestKwargs → Except PyError RequestsResponse)
    (method path : PyStr) (request : Option FastAPIRequest := none)
    (body : Option (List (PyStr × JValue)) := none)
    (raise_on_failure : Bool := false) : ProxyOutcome :=
  let request_kwargs := resolve_request_kwargs_from_request request body
  let o := send_request_to_api api_url api_base_version session_request
    method path raise_on_failure request_kwargs
  { logs := o.logs,
    result := o.result.map convert_requests_response_to_fastapi_response }

/-- The `Client` singleton's state after `__init__`: the normalized api url,
the api base version, and the mounted session (as its request function). -/
structure ChiefClient where
  api_url : PyStr
  api_base_version : PyStr
  session_request : PyStr → PyStr → RequestKwargs → Except PyError RequestsResponse

/-- `Client.get_internal_background_task`. -/
def ChiefClient.get_internal_background_task (c : ChiefClient) (name : PyStr)
    (request : Option FastAPIRequest) : ProxyOutcome :=
  proxy_request_to_chief c.api_url c.api_base_version c.session_request
    (sl "GET") (sl "background-tasks/" ++ name) request

/-- `Client.trigger_migrations`. -/
def ChiefClient.trigger_migrations (c : ChiefClient)
    (request : Option FastAPIRequest) : ProxyOutcome :=
  proxy_request_to_chief c.api_url c.api_base_version c.session_request
    (sl "POST") (sl "operations/migrations") request

/-- `Client.create_schedule`. -/
def ChiefClient.create_schedule (c : ChiefClient) (project : PyStr)
    (request : Option FastAPIRequest) (body : List (PyStr × JValue)) : ProxyOutcome :=
  proxy_request_to_chief c.api_url c.api_base_version c.session_request
    (sl "POST") (sl "projects/" ++ project ++ sl "/schedules") request (some body)

/-- `Client.update_schedule`. -/
def ChiefClient.update_schedule (c : ChiefClient) (project name : PyStr)
    (request : Option FastAPIRequest) (body : List (PyStr × JValue)) : ProxyOutcome :=
  proxy_request_to_chief c.api_url c.api_base_version c.session_request
    (sl "PUT") (sl "projects/" ++ project ++ sl "/schedules/" ++ name) request (some body)

/-- `Client.delete_schedule`. -/
def ChiefClient.delete_schedule (c : ChiefClient) (project name : PyStr)
    (request : Option FastAPIRequest) : ProxyOutcome :=
  proxy_request_to_chief c.api_url c.api_base_version c.session_request
    (sl "DELETE") (sl "projects/" ++ project ++ sl "/schedules/" ++ name) request

/-- `Client.delete_schedules`. -/
def ChiefClient.delete_schedules (c : ChiefClient) (project : PyStr)
    (request : Option FastAPIRequest) : ProxyOutcome :=
  proxy_request_to_chief c.api_url c.api_base_version c.session_request
    (sl "DELETE") (sl "projects/" ++ project ++ sl "/schedules") request

/-- `Client.invoke_schedule`. -/
def ChiefClient.invoke_schedule (c : ChiefClient) (project name : PyStr)
    (request : Option FastAPIRequest) : ProxyOutcome :=
  proxy_request_to_chief c.api_url c.api_base_version c.session_request
    (sl "POST") (sl "projects/" ++ project ++ sl "/schedules/" ++ name ++ sl "/invoke") request

/-- `Client.submit_job`. -/
def ChiefClient.submit_job (c : ChiefClient)
    (request : Option FastAPIRequest) (body : List (PyStr × JValue)) : ProxyOutcome :=
  proxy_request_to_chief c.api_url c.api_base_version c.session_request
    (sl "POST") (sl "submit_job") request (some body)

/-- `Client.build_function`. -/
def ChiefClient.build_function (c : ChiefClient)
    (request : Option FastAPIRequest) (body : List (PyStr × JValue)) : ProxyOutcome :=
  proxy_request_to_chief c.api_url c.api_base_version c.session_request
    (sl "POST") (sl "build/function") request (some body)

/-- `Client.delete_project`. -/
def ChiefClient.delete_project (c : ChiefClient) (name : PyStr)
    (request : Option FastAPIRequest) : ProxyOutcome :=
  proxy_request_to_chief c.api_url c.api_base_version c.session_request
    (sl "DELETE") (sl "projects/" ++ name) request

/-- Whether the send took the failure branch: it logged a warning. -/
def SendOutcome.warned (o : SendOutcome) : Bool :=
  o.logs.any (fun e => e.level == LogLevel.warning)

/-- Whether the send took the success branch: it logged a decoded body. -/
def SendOutcome.loggedSuccessBody (o : SendOutcome) : Bool :=
  o.logs.any (fun e => e.response.isSome)

/-- Whether the proxy call logged a warning. -/
def ProxyOutcome.warned (o : ProxyOutcome) : Bool :=
  o.logs.any (fun e => e.level == LogLevel.warning)

/-- The kwargs of the warning log, when one was emitted. -/
def SendOutcome.warnKwargs (o : SendOutcome) : Option LogKwargs :=
  match o.logs.find? (fun e => e.level == LogLevel.warning) with
  | some e => e.logKwargs
  | none => none

theorem ok_eq_false_iff (r : RequestsResponse) :
    r.ok = false ↔ (400 ≤ r.status_code ∧ r.status_code < 600) := by
  simp [RequestsResponse.ok]

theorem ok_eq_true_iff (r : RequestsResponse) :
    r.ok = true ↔ ¬(400 ≤ r.status_code ∧ r.status_code < 600) := by
  rw [← ok_eq_false_iff]
  cases r.ok <;> simp

/-- C1: for every supported operation and every configured base url, with or
without a trailing slash, the outbound request goes to a url exactly equal to
base-url `/api/` version `/` path, with no double slashes, because `__init__`
strips exactly one trailing slash from the resolved base url. -/
theorem C1_forward_url (b0 v p : PyStr)
    (hb : b0.getLast? ≠ some '/')
    (hv : v ≠ []) (hvh : v.head? ≠ some '/') (hvl : v.getLast? ≠ some '/')
    (hvd : noDoubleSlash v = true)
    (hph : p.head? ≠ some '/') (hpd : noDoubleSlash p = true) :
    initApiUrl b0 = b0 ∧
    initApiUrl (b0 ++ ['/']) = b0 ∧
    sendUrl (initApiUrl b0) v p = b0 ++ sl "/api/" ++ v ++ sl "/" ++ p ∧
    sendUrl (initApiUrl (b0 ++ ['/'])) v p = b0 ++ sl "/api/" ++ v ++ sl "/" ++ p ∧
    (noDoubleSlash b0 = true →
      noDoubleSlash (sendUrl (initApiUrl b0) v p) = true) ∧
    (∀ f m req body rof,
      ((proxy_request_to_chief (initApiUrl b0) v f m p req body rof).logs.head?.bind
          LogEntry.url)
        = some (b0 ++ sl "/api/" ++ v ++ sl "/" ++ p)) ∧
    (∀ f m req body rof,
      ((proxy_request_to_chief (initApiUrl (b0 ++ ['/'])) v f m p req body rof).logs.head?.bind
          LogEntry.url)
        = some (b0 ++ sl "/api/" ++ v ++ sl "/" ++ p)) := by
  have h1 : initApiUrl b0 = b0 := by
    simp [initApiUrl, hb]
  have h2 : initApiUrl (b0 ++ ['/']) = b0 := by
    simp [initApiUrl, List.getLast?_concat, List.dropLast_concat]
  have h3 : sendUrl (initApiUrl b0) v p = b0 ++ sl "/api/" ++ v ++ sl "/" ++ p := by
    rw [h1]; exact rfl
  have h4 : sendUrl (initApiUrl (b0 ++ ['/'])) v p
      = b0 ++ sl "/api/" ++ v ++ sl "/" ++ p := by
    rw [h2]; exact rfl
  refine ⟨h1, h2, h3, h4, ?_, ?_, ?_⟩
  · intro hb0d
    have m1 : noDoubleSlash (sl "/" ++ p) = true :=
      noDoubleSlash_append _ _ (by decide) hpd (Or.inr hph)
    have m2 : noDoubleSlash (v ++ (sl "/" ++ p)) = true :=
      noDoubleSlash_append _ _ hvd m1 (Or.inl hvl)
    have m3 : noDoubleSlash (sl "/api/" ++ (v ++ (sl "/" ++ p))) = true :=
      noDoubleSlash_append _ _ (by decide) m2
        (Or.inr (head?_ne_slash_of_append v _ hv hvh))
    have m4 : noDoubleSlash (b0 ++ (sl "/api/" ++ (v ++ (sl "/" ++ p)))) = true :=
      noDoubleSlash_append _ _ hb0d m3 (Or.inl hb)
    rw [h3]
    simpa [List.append_assoc] using m4
  · intro f m req body rof
    rw [h1]
    rfl
  · intro f m req body rof
    rw [h2]
    rfl

theorem C1_forward_url_witness :
    initApiUrl (sl "host") = sl "host" ∧
    initApiUrl (sl "host" ++ ['/']) = sl "host" ∧
    sendUrl (initApiUrl (sl "host")) (sl "v1") (sl "projects/p1/schedules")
      = sl "host" ++ sl "/api/" ++ sl "v1" ++ sl "/" ++ sl "projects/p1/schedules" ∧
    sendUrl (initApiUrl (sl "host" ++ ['/'])) (sl "v1") (sl "projects/p1/schedules")
      = sl "host" ++ sl "/api/" ++ sl "v1" ++ sl "/" ++ sl "projects/p1/schedules" ∧
    noDoubleSlash
      (sendUrl (initApiUrl (sl "host")) (sl "v1") (sl "projects/p1/schedules")) = true := by
  have h := C1_forward_url (sl "host") (sl "v1") (sl "projects/p1/schedules")
    (by decide) (by decide) (by decide) (by decide) (by decide) (by decide) (by decide)
  exact ⟨h.1, h.2.1, h.2.2.1, h.2.2.2.1, h.2.2.2.2.1 (by decide)⟩

/-- C2: the response translation copies the body bytes and status code
verbatim, flattens the case-insensitive header mapping to a plain mapping with
the same entries, and forces the media type to `application/json` regardless
of what the chief declared. -/
theorem C2_response_translation (r : RequestsResponse) :
    (convert_requests_response_to_fastapi_response r).content = r.content ∧
    (convert_requests_response_to_fastapi_response r).status_code = r.status_code ∧
    (convert_requests_response_to_fastapi_response r).headers = r.headers.toDict ∧
    (∀ kv, kv ∈ (convert_requests_response_to_fastapi_response r).headers
        ↔ kv ∈ r.headers.entries) ∧
    (convert_requests_response_to_fastapi_response r).media_type = sl "application/json" :=
  ⟨rfl, rfl, rfl, fun kv => Iff.rfl, rfl⟩

theorem proxy_result_of_ok_transport (a v : PyStr) (r : RequestsResponse)
    (m p : PyStr) (req : Option FastAPIRequest) (body : Option (List (PyStr × JValue))) :
    (proxy_request_to_chief a v (fun _ _ _ => Except.ok r) m p req body false).result
      = Except.ok (convert_requests_response_to_fastapi_response r) := by
  rcases Bool.eq_false_or_eq_true r.ok with hok | hok <;>
    simp [proxy_request_to_chief, send_request_to_api, Except.map, hok]

/-- A sample failing chief response: status 500 with a JSON error body. -/
def sampleFailingResponse : RequestsResponse :=
  { status_code := 500,
    content := [123],
    headers := { entries := [(sl "X", sl "y")] },
    jsonData := some (JValue.obj
      [(sl "error", JValue.str (sl "boom")),
       (sl "errorStackTrace", JValue.str (sl "trace"))]),
    text := sl "boom" }

/-- C3: on a failing response, `raise_on_failure = true` raises the domain
error and returns no response, while the default `raise_on_failure = false`
returns a pass-through response carrying the chief's original status code and
original body bytes. -/
theorem C3_failure_policy (a v m p : PyStr) (req : Option FastAPIRequest)
    (body : Option (List (PyStr × JValue))) (r : RequestsResponse)
    (h : r.ok = false) :
    (proxy_request_to_chief a v (fun _ _ _ => Except.ok r) m p req body true).result
      = Except.error (raise_for_status r) ∧
    (proxy_request_to_chief a v (fun _ _ _ => Except.ok r) m p req body false).result
      = Except.ok (convert_requests_response_to_fastapi_response r) ∧
    (convert_requests_response_to_fastapi_response r).status_code = r.status_code ∧
    (convert_requests_response_to_fastapi_response r).content = r.content := by
  refine ⟨?_, proxy_result_of_ok_transport a v r m p req body, rfl, rfl⟩
  simp [proxy_request_to_chief, send_request_to_api, Except.map, h]

theorem C3_failure_policy_witness :
    (proxy_request_to_chief (sl "host") (sl "v1")
        (fun _ _ _ => Except.ok sampleFailingResponse)
        (sl "GET") (sl "background-tasks/t1") none none true).result
      = Except.error (raise_for_status sampleFailingResponse) ∧
    (proxy_request_to_chief (sl "host") (sl "v1")
        (fun _ _ _ => Except.ok sampleFailingResponse)
        (sl "GET") (sl "background-tasks/t1") none none false).result
      = Except.ok (convert_requests_response_to_fastapi_response sampleFailingResponse) ∧
    (convert_requests_response_to_fastapi_response sampleFailingResponse).status_code
      = sampleFailingResponse.status_code ∧
    (convert_requests_response_to_fastapi_response sampleFailingResponse).content
      = sampleFailingResponse.content :=
  C3_failure_policy (sl "host") (sl "v1") (sl "GET") (sl "background-tasks/t1")
    none none sampleFailingResponse (by decide)

/-- A 302 redirect response: not a 2xx status, yet `response.ok` is true. -/
def redirectResponse : RequestsResponse :=
  { status_code := 302,
    content := [],
    headers := { entries := [] },
    jsonData := none,
    text := sl "" }

/-- C4 counterexample: a 302 response is not 2xx, yet the code takes the
success branch (no warning, a success debug log of the decoded body), so the
failure branch is not taken "exactly when the response status is non-2xx". -/
theorem C4_counterexample_redirect :
    ¬(200 ≤ redirectResponse.status_code ∧ redirectResponse.status_code < 300) ∧
    (send_request_to_api (sl "host") (sl "v1")
        (fun _ _ _ => Except.ok redirectResponse)
        (sl "GET") (sl "background-tasks/t1") false {}).warned = false ∧
    (send_request_to_api (sl "host") (sl "v1")
        (fun _ _ _ => Except.ok redirectResponse)
        (sl "GET") (sl "background-tasks/t1") false {}).loggedSuccessBody = true := by
  refine ⟨by decide, rfl, rfl⟩

@[simp] theorem beq_debug_warning_eq_false :
    (LogLevel.debug == LogLevel.warning) = false := rfl

@[simp] theorem beq_warning_warning_eq_true :
    (LogLevel.warning == LogLevel.warning) = true := rfl

/-- C4 amended: the failure branch (warning log plus the raise-on-failure
policy) is taken exactly when `response.ok` is false, i.e. when the status is
in 400..599; the success branch (debug log of the decoded body) is taken
exactly otherwise — in particular a 3xx status takes the success branch. -/
theorem C4_branching_on_ok (a v m p : PyStr) (rof : Bool) (k : RequestKwargs)
    (r : RequestsResponse) :
    ((send_request_to_api a v (fun _ _ _ => Except.ok r) m p rof k).warned = true
      ↔ (400 ≤ r.status_code ∧ r.status_code < 600)) ∧
    ((send_request_to_api a v (fun _ _ _ => Except.ok r) m p rof k).loggedSuccessBody = true
      ↔ ¬(400 ≤ r.status_code ∧ r.status_code < 600)) := by
  rcases Bool.eq_false_or_eq_true r.ok with hok | hok
  · have hprop := (ok_eq_true_iff r).mp hok
    cases rof <;>
      simp [send_request_to_api, SendOutcome.warned, SendOutcome.loggedSuccessBody,
        hok, hprop]
  · have hprop := (ok_eq_false_iff r).mp hok
    cases rof <;>
      simp [send_request_to_api, SendOutcome.warned, SendOutcome.loggedSuccessBody,
        hok, hprop.1, hprop.2]

theorem ok_update_decode_fields (r : RequestsResponse) (jd : Option JValue) (t : PyStr) :
    ({ r with jsonData := jd, text := t } : RequestsResponse).ok = r.ok := rfl

/-- C5: whether the body decodes as structured data has no effect on what the
forward returns — replacing the decode outcome (`response.json()` result and
`response.text`) by anything else leaves the returned result unchanged, on the
success path and on the failure path alike; and with the default
`raise_on_failure = false` the raw transport response is returned unmodified
whatever the decode outcome. -/
theorem C5_decode_never_affects_result (a v m p : PyStr) (rof : Bool)
    (k : RequestKwargs) (req : Option FastAPIRequest)
    (body : Option (List (PyStr × JValue))) (r : RequestsResponse)
    (jd : Option JValue) (t : PyStr) :
    (proxy_request_to_chief a v
        (fun _ _ _ => Except.ok ({ r with jsonData := jd, text := t })) m p req body rof).result
      = (proxy_request_to_chief a v (fun _ _ _ => Except.ok r) m p req body rof).result ∧
    ((send_request_to_api a v
        (fun _ _ _ => Except.ok ({ r with jsonData := jd, text := t })) m p rof k).result).map
        (fun resp => (resp.status_code, resp.content))
      = ((send_request_to_api a v (fun _ _ _ => Except.ok r) m p rof k).result).map
        (fun resp => (resp.status_code, resp.content)) ∧
    (send_request_to_api a v (fun _ _ _ => Except.ok r) m p false k).result
      = Except.ok r := by
  refine ⟨?_, ?_, ?_⟩ <;>
    rcases Bool.eq_false_or_eq_true r.ok with hok | hok <;>
      cases rof <;>
        simp [proxy_request_to_chief, send_request_to_api, Except.map,
          convert_requests_response_to_fastapi_response, raise_for_status,
          ok_update_decode_fields, hok]

/-- C6: when no inbound request context is supplied, the request-translation
step emits no transport arguments at all: no body, no headers, no query
params, no cookies. -/
theorem C6_no_inbound_context (body : Option (List (PyStr × JValue))) :
    resolve_request_kwargs_from_request none body = ({} : RequestKwargs) ∧
    (resolve_request_kwargs_from_request none body).data = none ∧
    (resolve_request_kwargs_from_request none body).headers = none ∧
    (resolve_request_kwargs_from_request none body).params = none ∧
    (resolve_request_kwargs_from_request none body).cookies = none :=
  ⟨rfl, rfl, rfl, rfl, rfl⟩

/-- A total transport failure, as raised after the adapter's retries run out. -/
def connectionFailure : PyError := PyError.connectionError (sl "connection refused")

/-- C7 counterexample: on a total connection failure with the default
`raise_on_failure = false`, the forward neither returns a synthetic failed
result nor maps the error to a gateway-style failure status — the proxy-only
connection error propagates out unchanged, and the forward logs no warning
(its only log is the pre-send debug line). -/
theorem C7_counterexample_connection_error :
    (proxy_request_to_chief (sl "host") (sl "v1")
        (fun _ _ _ => Except.error connectionFailure)
        (sl "POST") (sl "operations/migrations") none none false).result
      = Except.error connectionFailure ∧
    (proxy_request_to_chief (sl "host") (sl "v1")
        (fun _ _ _ => Except.error connectionFailure)
        (sl "POST") (sl "operations/migrations") none none false).warned = false ∧
    (proxy_request_to_chief (sl "host") (sl "v1")
        (fun _ _ _ => Except.error connectionFailure)
        (sl "POST") (sl "operations/migrations") none none false).logs.length = 1 :=
  ⟨rfl, rfl, rfl⟩

/-- C7 amended: when the transport layer fails entirely, the connection error
propagates out of the forward unchanged, whatever `raise_on_failure` is; the
forward itself performs no mapping and no failure logging (its only log is the
pre-send debug line) — any gateway-style mapping happens outside this module. -/
theorem C7_transport_error_propagates (a v m p : PyStr)
    (req : Option FastAPIRequest) (body : Option (List (PyStr × JValue)))
    (rof : Bool) (e : PyError) :
    (proxy_request_to_chief a v (fun _ _ _ => Except.error e) m p req body rof).result
      = Except.error e ∧
    (proxy_request_to_chief a v (fun _ _ _ => Except.error e) m p req body rof).warned
      = false ∧
    (proxy_request_to_chief a v (fun _ _ _ => Except.error e) m p req body rof).logs.length
      = 1 :=
  ⟨rfl, rfl, rfl⟩

/-- C8: on the failure path the warning log's kwargs are a copy of the
outbound kwargs (exactly the mapping the transport call was made with, timeout
defaulting included) extended with the method and the path, and the outbound
kwargs the transport call used — recorded by the pre-send debug line — are
that same unchanged mapping. -/
theorem C8_warning_log_kwargs (a v m p : PyStr) (rof : Bool) (k : RequestKwargs)
    (r : RequestsResponse) (h : r.ok = false) :
    ((send_request_to_api a v (fun _ _ _ => Except.ok r) m p rof k).warnKwargs).map
        LogKwargs.base = some (setDefaultTimeout k) ∧
    ((send_request_to_api a v (fun _ _ _ => Except.ok r) m p rof k).warnKwargs).map
        LogKwargs.method = some m ∧
    ((send_request_to_api a v (fun _ _ _ => Except.ok r) m p rof k).warnKwargs).map
        LogKwargs.path = some p ∧
    ((send_request_to_api a v (fun _ _ _ => Except.ok r) m p rof k).logs.head?.bind
        LogEntry.kwargs) = some (setDefaultTimeout k) := by
    cases hx : extractErrorDetails r with
    | none =>
      cases rof <;>
        simp [send_request_to_api, SendOutcome.warnKwargs, h, hx, List.find?]
    | some pair =>
      cases rof <;>
        simp [send_request_to_api, SendOutcome.warnKwargs, h, hx, List.find?]

theorem C8_warning_log_kwargs_witness :
    ((send_request_to_api (sl "host") (sl "v1")
        (fun _ _ _ => Except.ok sampleFailingResponse)
        (sl "GET") (sl "background-tasks/t1") false {}).warnKwargs).map
        LogKwargs.base = some (setDefaultTimeout {}) ∧
    ((send_request_to_api (sl "host") (sl "v1")
        (fun _ _ _ => Except.ok sampleFailingResponse)
        (sl "GET") (sl "background-tasks/t1") false {}).warnKwargs).map
        LogKwargs.method = some (sl "GET") ∧
    ((send_request_to_api (sl "host") (sl "v1")
        (fun _ _ _ => Except.ok sampleFailingResponse)
        (sl "GET") (sl "background-tasks/t1") false {}).warnKwargs).map
        LogKwargs.path = some (sl "background-tasks/t1") ∧
    ((send_request_to_api (sl "host") (sl "v1")
        (fun _ _ _ => Except.ok sampleFailingResponse)
        (sl "GET") (sl "background-tasks/t1") false {}).logs.head?.bind
        LogEntry.kwargs) = some (setDefaultTimeout {}) :=
  C8_warning_log_kwargs (sl "host") (sl "v1") (sl "GET") (sl "background-tasks/t1")
    false {} sampleFailingResponse (by decide)

/-- C9 (implicit): a non-empty body passed with no inbound request context is
silently dropped — the resolved kwargs carry no `data` key at all, and are the
empty kwargs. -/
theorem C9_body_dropped_without_request (b : List (PyStr × JValue)) (h : b ≠ []) :
    (resolve_request_kwargs_from_request none (some b)).data = none ∧
    resolve_request_kwargs_from_request none (some b) = ({} : RequestKwargs) :=
  ⟨rfl, rfl⟩

theorem C9_body_dropped_without_request_witness :
    (resolve_request_kwargs_from_request none
        (some [(sl "name", JValue.str (sl "j1"))])).data = none ∧
    resolve_request_kwargs_from_request none
        (some [(sl "name", JValue.str (sl "j1"))]) = ({} : RequestKwargs) :=
  C9_body_dropped_without_request [(sl "name", JValue.str (sl "j1"))] (by simp)

/-- C10 (implicit): every named forwarding operation leaves
`raise_on_failure` at its default `false`, so even on an application-level
failure none raises a domain error — each returns the pass-through translated
response. -/
theorem C10_named_ops_never_raise (a v : PyStr) (r : RequestsResponse)
    (name project : PyStr) (req : Option FastAPIRequest)
    (body : List (PyStr × JValue)) (h : 400 ≤ r.status_code) :
    ((ChiefClient.mk a v (fun _ _ _ => Except.ok r)).get_internal_background_task
        name req).result
      = Except.ok (convert_requests_response_to_fastapi_response r) ∧
    ((ChiefClient.mk a v (fun _ _ _ => Except.ok r)).trigger_migrations req).result
      = Except.ok (convert_requests_response_to_fastapi_response r) ∧
    ((ChiefClient.mk a v (fun _ _ _ => Except.ok r)).create_schedule
        project req body).result
      = Except.ok (convert_requests_response_to_fastapi_response r) ∧
    ((ChiefClient.mk a v (fun _ _ _ => Except.ok r)).update_schedule
        project name req body).result
      = Except.ok (convert_requests_response_to_fastapi_response r) ∧
    ((ChiefClient.mk a v (fun _ _ _ => Except.ok r)).delete_schedule
        project name req).result
      = Except.ok (convert_requests_response_to_fastapi_response r) ∧
    ((ChiefClient.mk a v (fun _ _ _ => Except.ok r)).delete_schedules
        project req).result
      = Except.ok (convert_requests_response_to_fastapi_response r) ∧
    ((ChiefClient.mk a v (fun _ _ _ => Except.ok r)).invoke_schedule
        project name req).result
      = Except.ok (convert_requests_response_to_fastapi_response r) ∧
    ((ChiefClient.mk a v (fun _ _ _ => Except.ok r)).submit_job req body).result
      = Except.ok (convert_requests_response_to_fastapi_response r) ∧
    ((ChiefClient.mk a v (fun _ _ _ => Except.ok r)).build_function req body).result
      = Except.ok (convert_requests_response_to_fastapi_response r) ∧
    ((ChiefClient.mk a v (fun _ _ _ => Except.ok r)).delete_project name req).result
      = Except.ok (convert_requests_response_to_fastapi_response r) :=
  ⟨proxy_result_of_ok_transport a v r _ _ req none,
   proxy_result_of_ok_transport a v r _ _ req none,
   proxy_result_of_ok_transport a v r _ _ req (some body),
   proxy_result_of_ok_transport a v r _ _ req (some body),
   proxy_result_of_ok_transport a v r _ _ req none,
   proxy_result_of_ok_transport a v r _ _ req none,
   proxy_result_of_ok_transport a v r _ _ req none,
   proxy_result_of_ok_transport a v r _ _ req (some body),
   proxy_result_of_ok_transport a v r _ _ req (some body),
   proxy_result_of_ok_transport a v r _ _ req none⟩

theorem C10_named_ops_never_raise_witness :
    ((ChiefClient.mk (sl "host") (sl "v1")
        (fun _ _ _ => Except.ok sampleFailingResponse)).get_internal_background_task
        (sl "t1") none).result
      = Except.ok (convert_requests_response_to_fastapi_response sampleFailingResponse) ∧
    ((ChiefClient.mk (sl "host") (sl "v1")
        (fun _ _ _ => Except.ok sampleFailingResponse)).trigger_migrations none).result
      = Except.ok (convert_requests_response_to_fastapi_response sampleFailingResponse) :=
  ⟨(C10_named_ops_never_raise (sl "host") (sl "v1") sampleFailingResponse
      (sl "t1") (sl "p1") none [] (by decide)).1,
   (C10_named_ops_never_raise (sl "host") (sl "v1") sampleFailingResponse
      (sl "t1") (sl "p1") none [] (by decide)).2.1⟩
